import Mathlib

/-!
Shallow embedding of `scripts/generate_documents.py`.

Modelling conventions, chosen once and used throughout:

* Randomness.  The script uses Python's global, unseeded `random` module.
  We model the random source as an abstract stream of natural numbers
  `RandGen := Nat → Nat`; each primitive (`randint`, `random.random`,
  `random.uniform`, `random.choice`, `random.sample`) consumes one draw from
  the head of the stream and returns the shifted stream.  The exact
  Mersenne-Twister consumption pattern is abstracted, but every primitive
  respects the range documented for its Python counterpart, and all
  data-dependence on randomness is threaded explicitly.

* Floats.  Python floats are modelled as rationals; `round(x, 2)` is modelled
  as arithmetic rounding to cents.  No claim depends on float rounding modes.

* Dates.  A `datetime` is modelled as an integer offset in days from
  2025-01-01 (the `start` of `random_date`).  `datetime(2026,1,29) -
  datetime(2025,1,1)` is 393 days (2025 has 365 days, plus 28 days of
  January 2026), so `random_date` draws an offset in `[0, 393]`.
  A date rendered with `strftime(fmt)` is recorded as the pair of the day
  offset and the format string; the manifest's `%Y-%m-%d` strings are
  recorded as `Scalar.date` of the day offset.

* Images.  PIL is an external library, so an image is a symbolic term:
  the initial canvas, `draw` nodes for the text/rectangle/line calls (the
  drawn text is kept segment by segment: literal strings, formatted dates,
  formatted dollar amounts; coordinates and fonts are presentation and are
  not modelled, and `textwrap.wrap` line breaking is content-preserving so a
  wrapped paragraph is recorded as one text item), a `blur` node for
  `ImageFilter.GaussianBlur`, a `noise` node recording the noise magnitude
  and the stream feeding the per-pixel loop (the per-pixel arithmetic of
  that loop is modelled separately by `noiseStepPixel`), and a `rotate`
  node for `Image.rotate`.

* JSON.  A manifest record is an association list mirroring the dict
  literals of the script, so that "which keys a record has" is a real
  property of the embedding.
-/

namespace GenerateDocuments

/-- Abstract source of randomness: an infinite stream of draws. -/
abbrev RandGen := Nat → Nat

/-- Drop the first draw of the stream. -/
def skip1 (g : RandGen) : RandGen := fun n => g (n + 1)

/-- Take the first draw of the stream. -/
def nextNat (g : RandGen) : Nat × RandGen := (g 0, skip1 g)

/-- Model of `random.randint(a, b)`: an integer in `[a, b]`, both ends
included (when `a ≤ b`). -/
def randint (a b : Int) (g : RandGen) : Int × RandGen :=
  (a + ((nextNat g).1 % (b - a + 1).toNat : Nat), (nextNat g).2)

/-- Model of `random.random()`: a rational in `[0, 1)` (`mkRat n d` is the
fraction `n / d`). -/
def randomUnit (g : RandGen) : ℚ × RandGen :=
  (mkRat ((nextNat g).1 % 1000000 : Nat) 1000000, (nextNat g).2)

/-- Model of `random.uniform(a, b)`. -/
def uniform (a b : ℚ) (g : RandGen) : ℚ × RandGen :=
  (a + (b - a) * (randomUnit g).1, (randomUnit g).2)

/-- Model of `round(x, 2)` (rounding to cents). -/
def round2 (x : ℚ) : ℚ := (⌊x * 100 + 1/2⌋ : ℚ) / 100

/-- Model of `random.choice(xs)` for integer lists. -/
def choiceInt (xs : List Int) (g : RandGen) : Int × RandGen :=
  (xs.getD ((nextNat g).1 % xs.length) 0, (nextNat g).2)

/-- Model of `random.choice(xs)` for string lists. -/
def choiceStr (xs : List String) (g : RandGen) : String × RandGen :=
  (xs.getD ((nextNat g).1 % xs.length) "", (nextNat g).2)

/-- `random_date(start_year=2025)`: a day offset in `[0, 393]` from
2025-01-01 (see the module comment for the 393). -/
def random_date (g : RandGen) : Int × RandGen := randint 0 393 g

/-- `random_amount(min_amt, max_amt)`: `round(random.uniform(lo, hi), 2)`. -/
def random_amount (lo hi : ℚ) (g : RandGen) : ℚ × RandGen :=
  (round2 (uniform lo hi g).1, (uniform lo hi g).2)

/-- An entry of the `ORGANIZATIONS` catalog. -/
structure Org where
  name : String
  ein : String
  short : String
deriving DecidableEq, Repr

/-- An entry of the `BANKS` catalog. -/
structure Bank where
  name : String
  short : String
deriving DecidableEq, Repr

/-- The static `ORGANIZATIONS` catalog. -/
def ORGANIZATIONS : List Org :=
  [⟨"Goodwill Industries", "53-0196517", "goodwill"⟩,
   ⟨"The Salvation Army", "13-5562351", "salvation-army"⟩,
   ⟨"American Red Cross", "53-0196605", "redcross"⟩,
   ⟨"Habitat for Humanity", "91-1914868", "habitat"⟩,
   ⟨"United Way Worldwide", "13-1635294", "unitedway"⟩,
   ⟨"Community Food Bank", "12-3456789", "foodbank"⟩,
   ⟨"First Community Church", "23-4567890", "church"⟩,
   ⟨"State University Foundation", "34-5678901", "university"⟩]

/-- The static `BANKS` catalog. -/
def BANKS : List Bank :=
  [⟨"Chase Bank", "chase"⟩,
   ⟨"Bank of America", "bofa"⟩,
   ⟨"Wells Fargo", "wellsfargo"⟩,
   ⟨"Citibank", "citi"⟩,
   ⟨"Local Credit Union", "creditunion"⟩]

/-- One quality preset: `{"blur": _, "noise": _, "rotation": _}`.  The source
key `rotation` is shortened to `rot` here. -/
structure QS where
  blur : ℚ
  noise : Int
  rot : Int
deriving DecidableEq, Repr

/-- The value `random.randint(5, 15)` evaluated once at module load for the
`edge` preset. -/
def moduleEdgeRotation (g : RandGen) : Int × RandGen := randint 5 15 g

/-- `QUALITY_SETTINGS`, parameterised by the module-load edge draw.
`mkRat n d` is the fraction `n / d`, so the blur magnitudes are the source's
`0.5`, `1.5` and `0.8`. -/
def QUALITY_SETTINGS (edgeRot : Int) : List (String × QS) :=
  [("high", ⟨0, 0, 0⟩),
   ("medium", ⟨mkRat 1 2, 10, 0⟩),
   ("low", ⟨mkRat 3 2, 25, 0⟩),
   ("edge", ⟨mkRat 4 5, 15, edgeRot⟩)]

/-- `QUALITY_SETTINGS.get(quality, QUALITY_SETTINGS["high"])`.  (The inner
`getD` default is unreachable: the `"high"` key is always present.) -/
def getQuality (edgeRot : Int) (q : String) : QS :=
  ((QUALITY_SETTINGS edgeRot).lookup q).getD
    (((QUALITY_SETTINGS edgeRot).lookup "high").getD ⟨0, 0, 0⟩)

/-- A segment of a drawn text: a literal string, a date rendered through
`strftime fmt`, or a dollar amount rendered through the money format. -/
inductive Seg where
  | s (text : String)
  | d (day : Int) (fmt : String)
  | m (amount : ℚ)
deriving DecidableEq, Repr

/-- One drawing call: a `draw.text` (its content as segments), a
`draw.rectangle`, or a `draw.line`. -/
inductive CanvasItem where
  | text (segs : List Seg)
  | rect
  | line
deriving DecidableEq, Repr

/-- A symbolic PIL image: the canvas, drawing calls, and the three filters
applied by post-processing. -/
inductive Img where
  | new (w h : Nat) (color : String)
  | draw (base : Img) (item : CanvasItem)
  | blur (base : Img) (radius : ℚ)
  | noise (base : Img) (mag : Int) (pixelRand : RandGen)
  | rotate (base : Img) (angle : Int)

/-- All drawing calls of an image, oldest first (filters keep the content). -/
def canvasItems : Img → List CanvasItem
  | .new _ _ _ => []
  | .draw b item => canvasItems b ++ [item]
  | .blur b _ => canvasItems b
  | .noise b _ _ => canvasItems b
  | .rotate b _ => canvasItems b

/-- The rotation angle of the outermost `rotate` node, if any. -/
def topRotation : Img → Option Int
  | .rotate _ a => some a
  | _ => none

/-- `true` iff the image is a plain drawn canvas: no filter applied yet. -/
def plainCanvas : Img → Bool
  | .new _ _ _ => true
  | .draw b _ => plainCanvas b
  | .blur _ _ => false
  | .noise _ _ _ => false
  | .rotate _ _ => false

/-- Issue a list of drawing calls in order. -/
def drawList (img : Img) (items : List CanvasItem) : Img :=
  items.foldl Img.draw img

/-- `add_watermark`: draws the `SAMPLE - FOR TESTING ONLY` text. -/
def add_watermark (img : Img) : Img :=
  Img.draw img (.text [.s "SAMPLE - FOR TESTING ONLY"])

/-- The body of the noise loop of `apply_quality` for one pixel: with
probability 0.1 add one `randint(-mag, mag)` draw to all three channels,
clamping each to `[0, 255]`; otherwise leave the pixel unchanged. -/
def noiseStepPixel (mag : Int) (px : Int × Int × Int) (g : RandGen) :
    (Int × Int × Int) × RandGen :=
  let u := (randomUnit g).1
  let g1 := (randomUnit g).2
  if u < 1/10 then
    let n := (randint (-mag) mag g1).1
    let g2 := (randint (-mag) mag g1).2
    ((max 0 (min 255 (px.1 + n)),
      max 0 (min 255 (px.2.1 + n)),
      max 0 (min 255 (px.2.2 + n))), g2)
  else (px, g1)

/-- `apply_quality(img, quality)`: look the label up (falling back to the
`high` preset), then blur if `blur > 0`, add noise if `noise > 0` (the noise
node keeps the magnitude and the stream feeding the per-pixel loop, whose
pixel arithmetic is `noiseStepPixel`), then rotate by a random sign times the
preset magnitude if `rotation > 0`. -/
def apply_quality (img : Img) (quality : String) (edgeRot : Int) (g : RandGen) :
    Img × RandGen :=
  let s := getQuality edgeRot quality
  let p1 : Img × RandGen := if s.blur > 0 then (Img.blur img s.blur, g) else (img, g)
  let p2 : Img × RandGen :=
    if s.noise > 0 then (Img.noise p1.1 s.noise p1.2, skip1 p1.2) else p1
  if s.rot > 0 then
    (Img.rotate p2.1 ((choiceInt [-1, 1] p2.2).1 * s.rot), (choiceInt [-1, 1] p2.2).2)
  else p2

/-- A scalar JSON value of the manifest.  `date d` stands for the
`strftime("%Y-%m-%d")` rendering of the day offset `d`. -/
inductive Scalar where
  | str (s : String)
  | num (q : ℚ)
  | date (day : Int)
  | bool (b : Bool)
deriving DecidableEq, Repr

/-- A flat JSON object (one charitable-transaction record). -/
abbrev FlatObj := List (String × Scalar)

/-- A value inside `expectedFields`: a scalar or an array of flat objects. -/
inductive FieldVal where
  | sc (v : Scalar)
  | arr (xs : List FlatObj)
deriving DecidableEq, Repr

/-- A top-level value of a manifest record: a scalar or the
`expectedFields` object. -/
inductive EntryVal where
  | sc (v : Scalar)
  | obj (fields : List (String × FieldVal))
deriving DecidableEq, Repr

/-- One manifest record, as the association list of the dict literal. -/
abbrev Entry := List (String × EntryVal)

/-- Python's `f"{n:03d}"` for the index argument. -/
def pad3 (n : Nat) : String :=
  if n < 10 then "00" ++ toString n
  else if n < 100 then "0" ++ toString n
  else toString n

/-- `date.year` for a day offset from 2025-01-01, on the `[0, 393]` range
produced by `random_date` (day 365 is 2026-01-01). -/
def yearOf (d : Int) : Int := if d < 365 then 2025 else 2026

/-- `f"RCP-{date.year}-{random.randint(10000, 99999)}"`. -/
def receiptNumber (d : Int) (serial : Int) : String :=
  "RCP-" ++ toString (yearOf d) ++ "-" ++ toString serial

/-- Model of `str.upper()` (character-wise upper-casing). -/
def strUpper (s : String) : String := ⟨s.data.map Char.toUpper⟩

/-- What a renderer produces: the saved image, its file name, the manifest
list after the `append`, and the advanced random stream. -/
structure GenOut where
  img : Img
  filename : String
  entries : List Entry
  g : RandGen

/-- `f"receipt_{org['short']}_{quality}_{index:03d}.png"`. -/
def receiptFilename (org : Org) (q : String) (index : Nat) : String :=
  "receipt_" ++ org.short ++ "_" ++ q ++ "_" ++ pad3 index ++ ".png"

/-- The dict literal appended to the manifest by `generate_receipt`. -/
def receiptRecord (org : Org) (q : String) (index : Nat)
    (d : Int) (amount : ℚ) (serial : Int) : Entry :=
  [("filename", .sc (.str ("receipts/" ++ receiptFilename org q index))),
   ("documentType", .sc (.str "receipt")),
   ("quality", .sc (.str q)),
   ("synthetic", .sc (.bool true)),
   ("expectedFields", .obj
     [("organization_name", .sc (.str org.name)),
      ("ein", .sc (.str org.ein)),
      ("amount", .sc (.num amount)),
      ("date", .sc (.date d)),
      ("donor_name", .sc (.str "Test Donor")),
      ("receipt_number", .sc (.str (receiptNumber d serial)))])]

/-- The tax paragraph of the receipt (drawn wrapped over several lines). -/
def receiptTaxText : String :=
  "No goods or services were provided in exchange for this donation. This receipt may be used for tax purposes."

/-- `generate_receipt(org, quality, index, manifest_entries)`. -/
def generate_receipt (org : Org) (quality : String) (index : Nat)
    (edgeRot : Int) (entries : List Entry) (g : RandGen) : GenOut :=
  let img0 := Img.new 600 800 "white"
  let img1 := drawList img0
    [.rect,
     .text [.s org.name],
     .text [.s "EIN: ", .s org.ein],
     .text [.s "DONATION RECEIPT"]]
  let d := (random_date g).1
  let g := (random_date g).2
  let amount := (random_amount 25 5000 g).1
  let g := (random_amount 25 5000 g).2
  let serial := (randint 10000 99999 g).1
  let g := (randint 10000 99999 g).2
  let img2 := drawList img1
    [.text [.s "Receipt Number: ", .s (receiptNumber d serial)],
     .text [.s "Date: ", .d d "%B %d, %Y"],
     .text [.s "Received From:"],
     .text [.s "Test Donor"],
     .text [.s "123 Test Street"],
     .text [.s "Test City, ST 12345"],
     .rect,
     .text [.s "DONATION AMOUNT"],
     .text [.m amount],
     .text [.s receiptTaxText],
     .line,
     .text [.s "Authorized Signature"],
     .text [.s "Thank you for your generous donation!"]]
  let img3 := add_watermark img2
  let img4 := (apply_quality img3 quality edgeRot g).1
  let g := (apply_quality img3 quality edgeRot g).2
  ⟨img4, receiptFilename org quality index,
   entries ++ [receiptRecord org quality index d amount serial], g⟩

/-- `f"acknowledgment_{org['short']}_{quality}_{index:03d}.png"`. -/
def letterFilename (org : Org) (q : String) (index : Nat) : String :=
  "acknowledgment_" ++ org.short ++ "_" ++ q ++ "_" ++ pad3 index ++ ".png"

/-- The dict literal appended to the manifest by
`generate_acknowledgment_letter`; its `date` is the donation-received date
drawn in the letter body, not the letterhead date. -/
def letterRecord (org : Org) (q : String) (index : Nat)
    (amount : ℚ) (donationDate : Int) : Entry :=
  [("filename", .sc (.str ("acknowledgment_letters/" ++ letterFilename org q index))),
   ("documentType", .sc (.str "acknowledgment_letter")),
   ("quality", .sc (.str q)),
   ("synthetic", .sc (.bool true)),
   ("expectedFields", .obj
     [("organization_name", .sc (.str org.name)),
      ("ein", .sc (.str org.ein)),
      ("amount", .sc (.num amount)),
      ("date", .sc (.date donationDate)),
      ("donor_name", .sc (.str "Test Donor"))])]

/-- The tax paragraph of the letter. -/
def letterTaxText : String :=
  "This letter serves as your official receipt for tax purposes. No goods or services were provided in exchange for your contribution. Please retain this letter for your tax records."

/-- `generate_acknowledgment_letter(org, quality, index, manifest_entries)`. -/
def generate_acknowledgment_letter (org : Org) (quality : String) (index : Nat)
    (edgeRot : Int) (entries : List Entry) (g : RandGen) : GenOut :=
  let img0 := Img.new 600 850 "white"
  let img1 := drawList img0
    [.text [.s org.name],
     .text [.s "123 Charity Lane, Nonprofit City, ST 00000"],
     .text [.s "Tax ID: ", .s org.ein],
     .line]
  let d := (random_date g).1
  let g := (random_date g).2
  let img2 := drawList img1
    [.text [.d d "%B %d, %Y"],
     .text [.s "Test Donor"],
     .text [.s "123 Test Street"],
     .text [.s "Test City, ST 12345"],
     .text [.s "Dear Test Donor,"]]
  let amount := (random_amount 25 5000 g).1
  let g := (random_amount 25 5000 g).2
  let off := (randint 1 14 g).1
  let g := (randint 1 14 g).2
  let dd := d - off
  let img3 := drawList img2
    [.text [.s "Thank you for your generous donation of ", .m amount,
            .s " received on ", .d dd "%B %d, %Y",
            .s ". Your support helps us continue our mission to serve the community."],
     .text [.s letterTaxText],
     .rect,
     .text [.s "Donation Details:"],
     .text [.s "Amount: ", .m amount],
     .text [.s "Date Received: ", .d dd "%Y-%m-%d"],
     .text [.s "Type: Cash/Check"],
     .text [.s "With gratitude,"],
     .line,
     .text [.s "Executive Director"],
     .text [.s org.name]]
  let img4 := add_watermark img3
  let img5 := (apply_quality img4 quality edgeRot g).1
  let g := (apply_quality img4 quality edgeRot g).2
  ⟨img5, letterFilename org quality index,
   entries ++ [letterRecord org quality index amount dd], g⟩

/-- One bank-statement transaction. -/
structure Txn where
  date : Int
  desc : String
  amount : ℚ
  balance : ℚ
  charitable : Bool
  org : Option Org
deriving DecidableEq, Repr

/-- The regular-transaction loop of `generate_bank_statement`: `n` times,
draw a debit in `[20, 200]`, update the balance, pick a description, and
advance the date by `randint(1, 5)`.  Returns the transactions, the final
date, the final balance and the stream. -/
def regularTxns : Nat → Int → ℚ → RandGen → List Txn × Int × ℚ × RandGen
  | 0, day, bal, g => ([], day, bal, g)
  | n + 1, day, bal, g =>
    let amt := -(uniform 20 200 g).1
    let g := (uniform 20 200 g).2
    let bal := bal + amt
    let desc := (choiceStr ["GROCERY STORE", "GAS STATION", "RESTAURANT", "ONLINE PURCHASE"] g).1
    let g := (choiceStr ["GROCERY STORE", "GAS STATION", "RESTAURANT", "ONLINE PURCHASE"] g).2
    let step := (randint 1 5 g).1
    let g := (randint 1 5 g).2
    let rest := regularTxns n (day + step) bal g
    (⟨day, desc, amt, bal, false, none⟩ :: rest.1, rest.2)

/-- The charitable-transaction loop: one donation of `random_amount(50, 500)`
per sampled organization, description `f"DONATION {org['name'][:20].upper()}"`,
advancing the date by `randint(1, 5)` after each. -/
def charitableTxns : List Org → Int → ℚ → RandGen → List Txn × Int × ℚ × RandGen
  | [], day, bal, g => ([], day, bal, g)
  | o :: os, day, bal, g =>
    let amt := -(random_amount 50 500 g).1
    let g := (random_amount 50 500 g).2
    let bal := bal + amt
    let rest :=
      let step := (randint 1 5 g).1
      let g := (randint 1 5 g).2
      charitableTxns os (day + step) bal g
    (⟨day, "DONATION " ++ strUpper (o.name.take 20), amt, bal, true, some o⟩ :: rest.1,
     rest.2)

/-- Model of `random.sample(pop, k)`: `k` distinct elements, each chosen by a
fresh draw among the remaining ones. -/
def sample (pop : List Org) (k : Nat) (g : RandGen) : List Org × RandGen :=
  match k, pop with
  | 0, _ => ([], g)
  | _ + 1, [] => ([], g)
  | k + 1, x :: xs =>
    let i := (nextNat g).1 % (x :: xs).length
    let g := (nextNat g).2
    let rest := sample ((x :: xs).eraseIdx i) k g
    ((x :: xs).getD i x :: rest.1, rest.2)

/-- `transactions.sort(key=lambda x: x["date"])` (a stable sort). -/
def sortByDate (txns : List Txn) : List Txn :=
  txns.mergeSort (fun a b => a.date ≤ b.date)

/-- The charitable-transactions record built for a drawn charitable
transaction (`txn["org"]["name"]`, `abs(txn["amount"])`, ISO date). -/
def charRow (t : Txn) : FlatObj :=
  [("organization", .str ((t.org.map Org.name).getD "")),
   ("amount", .num |t.amount|),
   ("date", .date t.date)]

/-- The four `draw.text` calls of one transaction row. -/
def txnRow (t : Txn) : List CanvasItem :=
  [.text [.d t.date "%m/%d"],
   .text [.s (t.desc.take 35)],
   .text [.m t.amount],
   .text [.m t.balance]]

/-- The transaction-drawing loop: starting at height `y`, stop (`break`) as
soon as `y > 600 - 80`; otherwise draw the row, and collect a `charRow` when
the transaction is charitable.  Returns the drawn rows and the collected
charitable records. -/
def drawTxns : List Txn → Nat → List CanvasItem × List FlatObj
  | [], _ => ([], [])
  | t :: ts, y =>
    if y > 520 then ([], [])
    else
      let rest := drawTxns ts (y + 22)
      (txnRow t ++ rest.1, (if t.charitable then [charRow t] else []) ++ rest.2)

/-- The prefix of the transactions actually drawn by the loop (the ones
before the `break`). -/
def drawnTxns : List Txn → Nat → List Txn
  | [], _ => []
  | t :: ts, y => if y > 520 then [] else t :: drawnTxns ts (y + 22)

/-- `f"bank_statement_{bank['short']}_{quality}_{index:03d}.png"`. -/
def bankFilename (bank : Bank) (q : String) (index : Nat) : String :=
  "bank_statement_" ++ bank.short ++ "_" ++ q ++ "_" ++ pad3 index ++ ".png"

/-- The dict literal appended to the manifest by `generate_bank_statement`. -/
def bankRecord (bank : Bank) (q : String) (index : Nat) (acct : String)
    (startD endD : Int) (chars : List FlatObj) : Entry :=
  [("filename", .sc (.str ("bank_statements/" ++ bankFilename bank q index))),
   ("documentType", .sc (.str "bank_statement")),
   ("quality", .sc (.str q)),
   ("synthetic", .sc (.bool true)),
   ("expectedFields", .obj
     [("bank_name", .sc (.str bank.name)),
      ("account_number", .sc (.str acct)),
      ("statement_period_start", .sc (.date startD)),
      ("statement_period_end", .sc (.date endD)),
      ("charitable_transactions", .arr chars)])]

/-- `generate_bank_statement(bank, quality, index, manifest_entries)`.  The
row drawing starts at `y = 190` (100 after the header, +20 +40 for the
account block, +30 for the table header). -/
def generate_bank_statement (bank : Bank) (quality : String) (index : Nat)
    (edgeRot : Int) (entries : List Entry) (g : RandGen) : GenOut :=
  let img0 := Img.new 700 600 "white"
  let img1 := drawList img0
    [.rect,
     .text [.s bank.name],
     .text [.s "Account Statement"]]
  let acct := "***" ++ toString (randint 1000 9999 g).1
  let g := (randint 1000 9999 g).2
  let startD := (random_date g).1
  let g := (random_date g).2
  let endD := startD + 30
  let img2 := drawList img1
    [.text [.s "Account: ", .s acct],
     .text [.s "Statement Period:"],
     .text [.s "Primary Checking"],
     .text [.d startD "%m/%d/%Y", .s " - ", .d endD "%m/%d/%Y"],
     .rect,
     .text [.s "Date"],
     .text [.s "Description"],
     .text [.s "Amount"],
     .text [.s "Balance"]]
  let bal0 := (uniform 5000 15000 g).1
  let g := (uniform 5000 15000 g).2
  let nReg := (randint 3 5 g).1
  let g := (randint 3 5 g).2
  let reg := regularTxns nReg.toNat startD bal0 g
  let g := reg.2.2.2
  let nChar := (randint 2 3 g).1
  let g := (randint 2 3 g).2
  let orgs := (sample ORGANIZATIONS nChar.toNat g).1
  let g := (sample ORGANIZATIONS nChar.toNat g).2
  let chr := charitableTxns orgs reg.2.1 reg.2.2.1 g
  let g := chr.2.2.2
  let txns := sortByDate (reg.1 ++ chr.1)
  let rows := drawTxns txns 190
  let img3 := drawList img2 rows.1
  let img4 := drawList img3 [.line, .text [.s "Page 1 of 1"]]
  let img5 := add_watermark img4
  let img6 := (apply_quality img5 quality edgeRot g).1
  let g := (apply_quality img5 quality edgeRot g).2
  ⟨img6, bankFilename bank quality index,
   entries ++ [bankRecord bank quality index acct startD endD rows.2], g⟩

/-- The quality schedule of the receipts loop:
`['high'] * 12 + ['medium'] * 9 + ['low'] * 6 + ['edge'] * 3`. -/
def receiptSchedule : List String :=
  List.replicate 12 "high" ++ List.replicate 9 "medium" ++
    List.replicate 6 "low" ++ List.replicate 3 "edge"

/-- The quality schedule of the acknowledgment-letters loop:
`['high'] * 10 + ['medium'] * 6 + ['low'] * 4`. -/
def letterSchedule : List String :=
  List.replicate 10 "high" ++ List.replicate 6 "medium" ++ List.replicate 4 "low"

/-- The quality schedule of the bank-statements loop:
`['high'] * 8 + ['medium'] * 5 + ['low'] * 2`. -/
def statementSchedule : List String :=
  List.replicate 8 "high" ++ List.replicate 5 "medium" ++ List.replicate 2 "low"

/-- `ORGANIZATIONS[i % len(ORGANIZATIONS)]` (the catalog is non-empty, so the
`getD` default is unreachable). -/
def orgAt (i : Nat) : Org := ORGANIZATIONS.getD (i % ORGANIZATIONS.length) ⟨"", "", ""⟩

/-- `BANKS[i % len(BANKS)]`. -/
def bankAt (i : Nat) : Bank := BANKS.getD (i % BANKS.length) ⟨"", ""⟩

/-- One `for i, quality in enumerate(schedule)` loop of `main`: at step `i`
the loop body `gen` reads and extends the shared manifest list and the random
stream. -/
def runSchedule (gen : Nat → String → List Entry → RandGen → List Entry × RandGen) :
    List String → Nat → List Entry → RandGen → List Entry × RandGen
  | [], _, es, g => (es, g)
  | q :: rest, i, es, g =>
    let r := gen i q es g
    runSchedule gen rest (i + 1) r.1 r.2

/-- The body of the receipts loop: `generate_receipt(ORGANIZATIONS[i % 8],
quality, receipt_count + 1, manifest_entries)` with `receipt_count = i`. -/
def genReceipt (edgeRot : Int) (i : Nat) (q : String)
    (es : List Entry) (g : RandGen) : List Entry × RandGen :=
  let r := generate_receipt (orgAt i) q (i + 1) edgeRot es g
  (r.entries, r.g)

/-- The body of the acknowledgment-letters loop. -/
def genLetter (edgeRot : Int) (i : Nat) (q : String)
    (es : List Entry) (g : RandGen) : List Entry × RandGen :=
  let r := generate_acknowledgment_letter (orgAt i) q (i + 1) edgeRot es g
  (r.entries, r.g)

/-- The body of the bank-statements loop, cycling through `BANKS`. -/
def genStatement (edgeRot : Int) (i : Nat) (q : String)
    (es : List Entry) (g : RandGen) : List Entry × RandGen :=
  let r := generate_bank_statement (bankAt i) q (i + 1) edgeRot es g
  (r.entries, r.g)

/-- The `documentCounts` object of the manifest. -/
structure DocumentCounts where
  receipts : Nat
  acknowledgment_letters : Nat
  bank_statements : Nat
deriving DecidableEq, Repr

/-- The final manifest object written by `main` (`generatedAt` is the wall
clock, passed in as a parameter). -/
structure Manifest where
  version : String
  generatedBy : String
  generatedAt : String
  totalDocuments : Nat
  documentCounts : DocumentCounts
  documents : List Entry
deriving DecidableEq, Repr

/-- The receipts loop of `main`: `manifest_entries` starts empty. -/
def pass1 (edgeRot : Int) (g : RandGen) : List Entry × RandGen :=
  runSchedule (genReceipt edgeRot) receiptSchedule 0 [] g

/-- The acknowledgment-letters loop of `main`, continuing on the manifest
list and stream left by the receipts loop. -/
def pass2 (edgeRot : Int) (g : RandGen) : List Entry × RandGen :=
  runSchedule (genLetter edgeRot) letterSchedule 0 (pass1 edgeRot g).1 (pass1 edgeRot g).2

/-- The bank-statements loop of `main`, continuing on the manifest list and
stream left by the letters loop. -/
def pass3 (edgeRot : Int) (g : RandGen) : List Entry × RandGen :=
  runSchedule (genStatement edgeRot) statementSchedule 0 (pass2 edgeRot g).1 (pass2 edgeRot g).2

/-- `main()`, given the module-load edge rotation: run the three schedule
loops over the shared manifest list, then build the manifest.  The per-type
counters of the source are incremented exactly once per loop iteration, so
they equal the schedule lengths. -/
def mainWith (edgeRot : Int) (now : String) (g : RandGen) : Manifest :=
  { version := "1.0.0",
    generatedBy := "claude-synthetic",
    generatedAt := now,
    totalDocuments := (pass3 edgeRot g).1.length,
    documentCounts :=
      ⟨receiptSchedule.length, letterSchedule.length, statementSchedule.length⟩,
    documents := (pass3 edgeRot g).1 }

/-- One run of the script: sample the `edge` rotation at module load, then
run `main`.  All observed randomness comes from the stream `g`; the wall
clock enters only through `now`. -/
def runProgram (now : String) (g : RandGen) : Manifest :=
  mainWith (moduleEdgeRotation g).1 now (moduleEdgeRotation g).2

theorem mainWith_documents_eq (er : Int) (now : String) (g : RandGen) :
    (mainWith er now g).documents = (pass3 er g).1 := by
  unfold mainWith
  with_reducible rfl

theorem mainWith_total_eq (er : Int) (now : String) (g : RandGen) :
    (mainWith er now g).totalDocuments = (pass3 er g).1.length := by
  unfold mainWith
  with_reducible rfl

theorem mainWith_counts_eq (er : Int) (now : String) (g : RandGen) :
    (mainWith er now g).documentCounts = ⟨30, 20, 15⟩ := by
  unfold mainWith
  rfl

/-- A concrete random stream (all draws 0), for witnesses. -/
def gZero : RandGen := fun _ => 0

/-- A concrete random stream (all draws 1), for counterexamples. -/
def gOne : RandGen := fun _ => 1

/-- The `expectedFields` object of a manifest record. -/
def expectedFieldsOf (e : Entry) : List (String × FieldVal) :=
  match e.lookup "expectedFields" with
  | some (.obj fs) => fs
  | _ => []

/-- The `date` ground-truth field of the first manifest record of a run. -/
def firstDocDate (docs : List Entry) : Option FieldVal :=
  (expectedFieldsOf (docs.getD 0 [])).lookup "date"

/-! ### Helper lemmas about the random primitives -/

theorem randint_bounds {a b : Int} (g : RandGen) (h : a ≤ b) :
    a ≤ (randint a b g).1 ∧ (randint a b g).1 ≤ b := by
  have hm : (g 0) % (b - a + 1).toNat < (b - a + 1).toNat :=
    Nat.mod_lt _ (by omega)
  unfold randint nextNat
  dsimp only
  omega

theorem choiceInt_sign (g : RandGen) :
    (choiceInt [-1, 1] g).1 = -1 ∨ (choiceInt [-1, 1] g).1 = 1 := by
  have h2 : ([-1, 1] : List Int).length = 2 := rfl
  unfold choiceInt nextNat
  dsimp only
  rw [h2]
  rcases Nat.mod_two_eq_zero_or_one (g 0) with h | h <;> rw [h]
  · exact Or.inl rfl
  · exact Or.inr rfl

theorem moduleEdgeRotation_bounds (g : RandGen) :
    5 ≤ (moduleEdgeRotation g).1 ∧ (moduleEdgeRotation g).1 ≤ 15 :=
  randint_bounds g (by decide)

/-! ### Helper lemmas about images and `apply_quality` -/

theorem canvasItems_drawList (items : List CanvasItem) (img : Img) :
    canvasItems (drawList img items) = canvasItems img ++ items := by
  induction items generalizing img with
  | nil => simp [drawList, List.foldl]
  | cons x xs ih =>
    show canvasItems (drawList (Img.draw img x) xs) = _
    rw [ih]
    simp [canvasItems]

theorem plainCanvas_drawList (items : List CanvasItem) (img : Img) :
    plainCanvas (drawList img items) = plainCanvas img := by
  induction items generalizing img with
  | nil => rfl
  | cons x xs ih =>
    show plainCanvas (drawList (Img.draw img x) xs) = _
    rw [ih]
    rfl

theorem canvasItems_add_watermark (img : Img) :
    canvasItems (add_watermark img) =
      canvasItems img ++ [.text [.s "SAMPLE - FOR TESTING ONLY"]] := rfl

theorem canvasItems_apply_quality (img : Img) (q : String) (er : Int) (g : RandGen) :
    canvasItems (apply_quality img q er g).1 = canvasItems img := by
  by_cases h3 : (getQuality er q).rot > 0 <;>
    by_cases h2 : (getQuality er q).noise > 0 <;>
      by_cases h1 : (getQuality er q).blur > 0 <;>
        simp [apply_quality, h1, h2, h3, canvasItems]

theorem apply_quality_high (er : Int) (img : Img) (g : RandGen) :
    apply_quality img "high" er g = (img, g) := rfl

theorem apply_quality_medium (er : Int) (img : Img) (g : RandGen) :
    apply_quality img "medium" er g =
      (Img.noise (Img.blur img (mkRat 1 2)) 10 g, skip1 g) := rfl

theorem apply_quality_low (er : Int) (img : Img) (g : RandGen) :
    apply_quality img "low" er g =
      (Img.noise (Img.blur img (mkRat 3 2)) 25 g, skip1 g) := rfl

theorem apply_quality_edge (er : Int) (img : Img) (g : RandGen) (h : (0:Int) < er) :
    apply_quality img "edge" er g =
      (Img.rotate (Img.noise (Img.blur img (mkRat 4 5)) 15 g)
        ((choiceInt [-1, 1] (skip1 g)).1 * er),
       (choiceInt [-1, 1] (skip1 g)).2) := by
  unfold apply_quality
  rw [show getQuality er "edge" = ⟨mkRat 4 5, 15, er⟩ from rfl]
  dsimp only
  rw [if_pos (by decide : (mkRat 4 5 : ℚ) > 0)]
  dsimp only
  rw [if_pos (by decide : (15:Int) > 0)]
  dsimp only
  rw [if_pos (show er > 0 from h)]

/-! ### Helper lemmas about the schedule loops -/

/-- The value list `[pf i q₀, pf (i+1) q₁, ...]` along a schedule. -/
def pfList {β : Type _} (pf : Nat → String → β) : List String → Nat → List β
  | [], _ => []
  | q :: rest, i => pf i q :: pfList pf rest (i + 1)

theorem runSchedule_spec
    (gen : Nat → String → List Entry → RandGen → List Entry × RandGen)
    (P : Nat → String → Entry → Prop)
    (H : ∀ i q es g, ∃ e, (gen i q es g).1 = es ++ [e] ∧ P i q e) :
    ∀ (sched : List String) (i : Nat) (es : List Entry) (g : RandGen),
      ∃ L, (runSchedule gen sched i es g).1 = es ++ L ∧
        L.length = sched.length ∧
        ∀ j, j < sched.length → P (i + j) (sched.getD j "") (L.getD j []) := by
  intro sched
  induction sched with
  | nil =>
    intro i es g
    exact ⟨[], by simp [runSchedule], rfl, fun j hj => absurd hj (by simp)⟩
  | cons q rest ih =>
    intro i es g
    obtain ⟨e, he, hp⟩ := H i q es g
    obtain ⟨L, hL, hlen, hP⟩ := ih (i + 1) (es ++ [e]) (gen i q es g).2
    refine ⟨e :: L, ?_, ?_, ?_⟩
    · show (runSchedule gen rest (i + 1) (gen i q es g).1 (gen i q es g).2).1 = _
      rw [he, hL]
      simp
    · simpa using hlen
    · intro j hj
      cases j with
      | zero => simpa using hp
      | succ j =>
        have hj2 : j < rest.length := by simpa using hj
        have := hP j hj2
        have harith : i + 1 + j = i + (j + 1) := by omega
        rw [harith] at this
        simpa [List.getD_cons_succ] using this

theorem runSchedule_map {β : Type _}
    (gen : Nat → String → List Entry → RandGen → List Entry × RandGen)
    (proj : Entry → β) (pf : Nat → String → β)
    (H : ∀ i q es g, ∃ e, (gen i q es g).1 = es ++ [e] ∧ proj e = pf i q) :
    ∀ (sched : List String) (i : Nat) (es : List Entry) (g : RandGen),
      ∃ L, (runSchedule gen sched i es g).1 = es ++ L ∧
        L.map proj = pfList pf sched i := by
  intro sched
  induction sched with
  | nil => intro i es g; exact ⟨[], by simp [runSchedule], rfl⟩
  | cons q rest ih =>
    intro i es g
    obtain ⟨e, he, hp⟩ := H i q es g
    obtain ⟨L, hL, hmap⟩ := ih (i + 1) (es ++ [e]) (gen i q es g).2
    refine ⟨e :: L, ?_, ?_⟩
    · show (runSchedule gen rest (i + 1) (gen i q es g).1 (gen i q es g).2).1 = _
      rw [he, hL]
      simp
    · simp [pfList, hp, hmap]

/-! ### Helper lemmas about the transaction-drawing loop -/

theorem drawTxns_spec (txns : List Txn) (y : Nat) :
    (drawTxns txns y).1 = ((drawnTxns txns y).map txnRow).flatten ∧
    (drawTxns txns y).2 =
      ((drawnTxns txns y).filter (fun t => t.charitable)).map charRow := by
  induction txns generalizing y with
  | nil => simp [drawTxns, drawnTxns]
  | cons t ts ih =>
    by_cases h : y > 520
    · simp [drawTxns, drawnTxns, h]
    · obtain ⟨h1, h2⟩ := ih (y + 22)
      by_cases hc : t.charitable <;>
        simp [drawTxns, drawnTxns, h, h1, h2, hc, List.filter_cons]

/-! ### Characterisations of the three renderers

Each renderer is, definitionally, "draw the canvas, then `add_watermark`,
then `apply_quality`, then append one record"; the lemmas below exhibit that
decomposition with the sampled values made explicit. -/

/-- The fully drawn receipt canvas, before post-processing. -/
def receiptCanvas (org : Org) (d : Int) (a : ℚ) (serial : Int) : Img :=
  drawList (drawList (Img.new 600 800 "white")
    [.rect,
     .text [.s org.name],
     .text [.s "EIN: ", .s org.ein],
     .text [.s "DONATION RECEIPT"]])
    [.text [.s "Receipt Number: ", .s (receiptNumber d serial)],
     .text [.s "Date: ", .d d "%B %d, %Y"],
     .text [.s "Received From:"],
     .text [.s "Test Donor"],
     .text [.s "123 Test Street"],
     .text [.s "Test City, ST 12345"],
     .rect,
     .text [.s "DONATION AMOUNT"],
     .text [.m a],
     .text [.s receiptTaxText],
     .line,
     .text [.s "Authorized Signature"],
     .text [.s "Thank you for your generous donation!"]]

theorem generate_receipt_eq (org : Org) (q : String) (index : Nat) (er : Int)
    (es : List Entry) (g : RandGen) :
    ∃ d a serial g1,
      generate_receipt org q index er es g =
        ⟨(apply_quality (add_watermark (receiptCanvas org d a serial)) q er g1).1,
         receiptFilename org q index,
         es ++ [receiptRecord org q index d a serial],
         (apply_quality (add_watermark (receiptCanvas org d a serial)) q er g1).2⟩ :=
  ⟨_, _, _, _, rfl⟩

/-- The fully drawn letter canvas, before post-processing: `d` is the
letterhead date, `dd` the donation-received date of the body. -/
def letterCanvas (org : Org) (d : Int) (a : ℚ) (dd : Int) : Img :=
  drawList (drawList (drawList (Img.new 600 850 "white")
    [.text [.s org.name],
     .text [.s "123 Charity Lane, Nonprofit City, ST 00000"],
     .text [.s "Tax ID: ", .s org.ein],
     .line])
    [.text [.d d "%B %d, %Y"],
     .text [.s "Test Donor"],
     .text [.s "123 Test Street"],
     .text [.s "Test City, ST 12345"],
     .text [.s "Dear Test Donor,"]])
    [.text [.s "Thank you for your generous donation of ", .m a,
            .s " received on ", .d dd "%B %d, %Y",
            .s ". Your support helps us continue our mission to serve the community."],
     .text [.s letterTaxText],
     .rect,
     .text [.s "Donation Details:"],
     .text [.s "Amount: ", .m a],
     .text [.s "Date Received: ", .d dd "%Y-%m-%d"],
     .text [.s "Type: Cash/Check"],
     .text [.s "With gratitude,"],
     .line,
     .text [.s "Executive Director"],
     .text [.s org.name]]

theorem generate_acknowledgment_letter_eq (org : Org) (q : String) (index : Nat)
    (er : Int) (es : List Entry) (g : RandGen) :
    ∃ d a off g1,
      generate_acknowledgment_letter org q index er es g =
        ⟨(apply_quality (add_watermark (letterCanvas org d a (d - off))) q er g1).1,
         letterFilename org q index,
         es ++ [letterRecord org q index a (d - off)],
         (apply_quality (add_watermark (letterCanvas org d a (d - off))) q er g1).2⟩ ∧
      off = (randint 1 14 (random_amount 25 5000 (random_date g).2).2).1 :=
  ⟨_, _, _, _, rfl, rfl⟩

/-- The fully drawn bank-statement canvas, before post-processing:
`rows` are the drawing calls of the transaction loop. -/
def bankCanvas (bank : Bank) (acct : String) (startD endD : Int)
    (rows : List CanvasItem) : Img :=
  drawList (drawList (drawList (drawList (Img.new 700 600 "white")
    [.rect,
     .text [.s bank.name],
     .text [.s "Account Statement"]])
    [.text [.s "Account: ", .s acct],
     .text [.s "Statement Period:"],
     .text [.s "Primary Checking"],
     .text [.d startD "%m/%d/%Y", .s " - ", .d endD "%m/%d/%Y"],
     .rect,
     .text [.s "Date"],
     .text [.s "Description"],
     .text [.s "Amount"],
     .text [.s "Balance"]])
    rows)
    [.line, .text [.s "Page 1 of 1"]]

theorem generate_bank_statement_eq (bank : Bank) (q : String) (index : Nat)
    (er : Int) (es : List Entry) (g : RandGen) :
    ∃ (acctN startD : Int) (txns : List Txn) (g1 : RandGen),
      generate_bank_statement bank q index er es g =
        ⟨(apply_quality (add_watermark (bankCanvas bank ("***" ++ toString acctN)
            startD (startD + 30) (drawTxns txns 190).1)) q er g1).1,
         bankFilename bank q index,
         es ++ [bankRecord bank q index ("***" ++ toString acctN)
            startD (startD + 30) (drawTxns txns 190).2],
         (apply_quality (add_watermark (bankCanvas bank ("***" ++ toString acctN)
            startD (startD + 30) (drawTxns txns 190).1)) q er g1).2⟩ :=
  ⟨_, _, _, _, rfl⟩

theorem mem_canvasItems_post (x : CanvasItem) (base : Img) (q : String)
    (er : Int) (g : RandGen) (hx : x ∈ canvasItems base) :
    x ∈ canvasItems (apply_quality (add_watermark base) q er g).1 := by
  rw [canvasItems_apply_quality, canvasItems_add_watermark]
  exact List.mem_append_left _ hx

/-! ### Claim theorems -/

/-- C4: the quality labels are named presets with the fixed magnitudes
high = (0, 0, 0), medium = (0.5, 10, 0), low = (1.5, 25, 0),
edge = (0.8, 15, r) with r the module-load draw in [5, 15]; and
`apply_quality` applies exactly the blur, noise and rotation of the looked-up
preset (in particular `high` applies no degradation at all). -/
theorem quality_presets_and_apply (er : Int) (img : Img) (g g0 : RandGen) :
    getQuality er "high" = ⟨0, 0, 0⟩ ∧
    getQuality er "medium" = ⟨1/2, 10, 0⟩ ∧
    getQuality er "low" = ⟨3/2, 25, 0⟩ ∧
    getQuality er "edge" = ⟨4/5, 15, er⟩ ∧
    (5 ≤ (moduleEdgeRotation g0).1 ∧ (moduleEdgeRotation g0).1 ≤ 15) ∧
    apply_quality img "high" er g = (img, g) ∧
    apply_quality img "medium" er g = (Img.noise (Img.blur img (1/2)) 10 g, skip1 g) ∧
    apply_quality img "low" er g = (Img.noise (Img.blur img (3/2)) 25 g, skip1 g) ∧
    ∃ c, (c = -1 ∨ c = 1) ∧
      apply_quality img "edge" (moduleEdgeRotation g0).1 g =
        (Img.rotate (Img.noise (Img.blur img (4/5)) 15 g)
          (c * (moduleEdgeRotation g0).1), skip1 (skip1 g)) := by
  have e1 : (mkRat 1 2 : ℚ) = 1/2 := by norm_num [Rat.mkRat_eq_div]
  have e3 : (mkRat 3 2 : ℚ) = 3/2 := by norm_num [Rat.mkRat_eq_div]
  have e4 : (mkRat 4 5 : ℚ) = 4/5 := by norm_num [Rat.mkRat_eq_div]
  obtain ⟨hlo, hhi⟩ := moduleEdgeRotation_bounds g0
  refine ⟨rfl, by rw [← e1]; rfl, by rw [← e3]; rfl, by rw [← e4]; rfl,
    ⟨hlo, hhi⟩, apply_quality_high er img g, ?_, ?_, ?_⟩
  · rw [apply_quality_medium, e1]
  · rw [apply_quality_low, e3]
  · refine ⟨(choiceInt [-1, 1] (skip1 g)).1, choiceInt_sign (skip1 g), ?_⟩
    rw [apply_quality_edge _ _ _ (by omega), e4]
    rfl

/-- C7: the edge rotation magnitude is `random.randint(5, 15)` sampled once
at module load and then fixed for the whole run (`runProgram` threads the
single draw into `main`); every edge-quality application rotates by that same
magnitude, only the sign being a fresh per-image draw. -/
theorem edge_rotation_fixed_per_run (now : String) (g g0 g1 g2 : RandGen)
    (img1 img2 : Img) :
    runProgram now g = mainWith (moduleEdgeRotation g).1 now (moduleEdgeRotation g).2 ∧
    moduleEdgeRotation g0 = randint 5 15 g0 ∧
    (5 ≤ (moduleEdgeRotation g0).1 ∧ (moduleEdgeRotation g0).1 ≤ 15) ∧
    ∃ c1 c2, (c1 = -1 ∨ c1 = 1) ∧ (c2 = -1 ∨ c2 = 1) ∧
      topRotation (apply_quality img1 "edge" (moduleEdgeRotation g0).1 g1).1 =
        some (c1 * (moduleEdgeRotation g0).1) ∧
      topRotation (apply_quality img2 "edge" (moduleEdgeRotation g0).1 g2).1 =
        some (c2 * (moduleEdgeRotation g0).1) ∧
      (c1 * (moduleEdgeRotation g0).1).natAbs = (c2 * (moduleEdgeRotation g0).1).natAbs := by
  obtain ⟨hlo, hhi⟩ := moduleEdgeRotation_bounds g0
  refine ⟨rfl, rfl, ⟨hlo, hhi⟩,
    (choiceInt [-1, 1] (skip1 g1)).1, (choiceInt [-1, 1] (skip1 g2)).1,
    choiceInt_sign (skip1 g1), choiceInt_sign (skip1 g2), ?_, ?_, ?_⟩
  · rw [apply_quality_edge _ _ _ (by omega)]
    rfl
  · rw [apply_quality_edge _ _ _ (by omega)]
    rfl
  · rcases choiceInt_sign (skip1 g1) with h1 | h1 <;>
      rcases choiceInt_sign (skip1 g2) with h2 | h2 <;>
        rw [h1, h2] <;> simp [Int.natAbs_mul]

/-- C8: the noise step of `apply_quality` never produces an out-of-range
channel: a pixel is either left unchanged, or each of its three new channel
values is clamped into [0, 255]. -/
theorem noise_clamps_to_byte_range (mag : Int) (px : Int × Int × Int) (g : RandGen) :
    (noiseStepPixel mag px g).1 = px ∨
    (0 ≤ (noiseStepPixel mag px g).1.1 ∧ (noiseStepPixel mag px g).1.1 ≤ 255 ∧
     0 ≤ (noiseStepPixel mag px g).1.2.1 ∧ (noiseStepPixel mag px g).1.2.1 ≤ 255 ∧
     0 ≤ (noiseStepPixel mag px g).1.2.2 ∧ (noiseStepPixel mag px g).1.2.2 ≤ 255) := by
  unfold noiseStepPixel
  dsimp only
  split
  · right
    dsimp only
    refine ⟨?_, ?_, ?_, ?_, ?_, ?_⟩ <;> omega
  · left
    rfl

/-- C9: `apply_quality` with a label outside the four presets does not fail:
the `.get` fallback selects the `high` preset, so the image and the random
stream are returned unchanged (no blur, noise or rotation). -/
theorem apply_quality_unknown_label (img : Img) (q : String) (er : Int)
    (g : RandGen) (h : q ∉ ["high", "medium", "low", "edge"]) :
    apply_quality img q er g = (img, g) := by
  simp only [List.mem_cons, List.not_mem_nil, or_false, not_or] at h
  obtain ⟨h1, h2, h3, h4⟩ := h
  have b1 : (q == "high") = false := beq_eq_false_iff_ne.mpr h1
  have b2 : (q == "medium") = false := beq_eq_false_iff_ne.mpr h2
  have b3 : (q == "low") = false := beq_eq_false_iff_ne.mpr h3
  have b4 : (q == "edge") = false := beq_eq_false_iff_ne.mpr h4
  have hq : getQuality er q = ⟨0, 0, 0⟩ := by
    simp [getQuality, QUALITY_SETTINGS, List.lookup, b1, b2, b3, b4]
  simp [apply_quality, hq]

theorem apply_quality_unknown_label_witness :
    "bogus" ∉ ["high", "medium", "low", "edge"] ∧
      apply_quality (Img.new 1 1 "white") "bogus" 7 gZero =
        (Img.new 1 1 "white", gZero) :=
  ⟨by decide, apply_quality_unknown_label _ _ _ _ (by decide)⟩

/-- C2 (amended): generation is deterministic only as a function of the
observed random stream and the wall clock: two runs that observe the same
stream and the same timestamp produce the same manifest. -/
theorem run_deterministic_given_stream (now1 now2 : String) (g1 g2 : RandGen)
    (hg : g1 = g2) (hnow : now1 = now2) :
    runProgram now1 g1 = runProgram now2 g2 := by
  rw [hg, hnow]

theorem run_deterministic_given_stream_witness :
    gZero = gZero ∧
      runProgram "2026-01-29T00:00:00Z" gZero = runProgram "2026-01-29T00:00:00Z" gZero :=
  ⟨rfl, run_deterministic_given_stream _ _ _ _ rfl rfl⟩

/-- C2 counterexample: two runs of the program that observe different
(unseeded) random streams produce different manifest record lists, even at
the same timestamp — already the `date` ground truth of the very first
receipt differs. -/
theorem run_not_deterministic_cex :
    (runProgram "2026-01-29T00:00:00Z" gZero).documents ≠
      (runProgram "2026-01-29T00:00:00Z" gOne).documents := by
  intro h
  have h2 : firstDocDate (runProgram "2026-01-29T00:00:00Z" gZero).documents =
      firstDocDate (runProgram "2026-01-29T00:00:00Z" gOne).documents := by
    rw [h]
  exact absurd h2 (by decide)

/-! ### Canvas inventories of the three renderers -/

theorem canvasItems_receiptCanvas (org : Org) (d : Int) (a : ℚ) (serial : Int) :
    canvasItems (receiptCanvas org d a serial) =
      [.rect,
       .text [.s org.name],
       .text [.s "EIN: ", .s org.ein],
       .text [.s "DONATION RECEIPT"],
       .text [.s "Receipt Number: ", .s (receiptNumber d serial)],
       .text [.s "Date: ", .d d "%B %d, %Y"],
       .text [.s "Received From:"],
       .text [.s "Test Donor"],
       .text [.s "123 Test Street"],
       .text [.s "Test City, ST 12345"],
       .rect,
       .text [.s "DONATION AMOUNT"],
       .text [.m a],
       .text [.s receiptTaxText],
       .line,
       .text [.s "Authorized Signature"],
       .text [.s "Thank you for your generous donation!"]] := by
  simp [receiptCanvas, canvasItems_drawList, canvasItems]

theorem canvasItems_letterCanvas (org : Org) (d : Int) (a : ℚ) (dd : Int) :
    canvasItems (letterCanvas org d a dd) =
      [.text [.s org.name],
       .text [.s "123 Charity Lane, Nonprofit City, ST 00000"],
       .text [.s "Tax ID: ", .s org.ein],
       .line,
       .text [.d d "%B %d, %Y"],
       .text [.s "Test Donor"],
       .text [.s "123 Test Street"],
       .text [.s "Test City, ST 12345"],
       .text [.s "Dear Test Donor,"],
       .text [.s "Thank you for your generous donation of ", .m a,
              .s " received on ", .d dd "%B %d, %Y",
              .s ". Your support helps us continue our mission to serve the community."],
       .text [.s letterTaxText],
       .rect,
       .text [.s "Donation Details:"],
       .text [.s "Amount: ", .m a],
       .text [.s "Date Received: ", .d dd "%Y-%m-%d"],
       .text [.s "Type: Cash/Check"],
       .text [.s "With gratitude,"],
       .line,
       .text [.s "Executive Director"],
       .text [.s org.name]] := by
  simp [letterCanvas, canvasItems_drawList, canvasItems]

theorem canvasItems_bankCanvas (bank : Bank) (acct : String) (startD endD : Int)
    (rows : List CanvasItem) :
    canvasItems (bankCanvas bank acct startD endD rows) =
      [.rect,
       .text [.s bank.name],
       .text [.s "Account Statement"],
       .text [.s "Account: ", .s acct],
       .text [.s "Statement Period:"],
       .text [.s "Primary Checking"],
       .text [.d startD "%m/%d/%Y", .s " - ", .d endD "%m/%d/%Y"],
       .rect,
       .text [.s "Date"],
       .text [.s "Description"],
       .text [.s "Amount"],
       .text [.s "Balance"]] ++ rows ++ [.line, .text [.s "Page 1 of 1"]] := by
  simp [bankCanvas, canvasItems_drawList, canvasItems]

/-! ### C1: one record per rendered image, ground truth in lockstep -/

/-- What C1 asserts of one `generate_receipt` call: exactly one record is
appended, and its `expectedFields` are the very values drawn on the canvas
(organization name, EIN, amount, date, donor name, receipt number). -/
def ReceiptLockstep (org : Org) (q : String) (index : Nat) (er : Int)
    (es : List Entry) (g : RandGen) : Prop :=
  ∃ d a serial,
    (generate_receipt org q index er es g).entries
        = es ++ [receiptRecord org q index d a serial] ∧
    CanvasItem.text [.s org.name]
        ∈ canvasItems (generate_receipt org q index er es g).img ∧
    CanvasItem.text [.s "EIN: ", .s org.ein]
        ∈ canvasItems (generate_receipt org q index er es g).img ∧
    CanvasItem.text [.s "Receipt Number: ", .s (receiptNumber d serial)]
        ∈ canvasItems (generate_receipt org q index er es g).img ∧
    CanvasItem.text [.s "Date: ", .d d "%B %d, %Y"]
        ∈ canvasItems (generate_receipt org q index er es g).img ∧
    CanvasItem.text [.s "Test Donor"]
        ∈ canvasItems (generate_receipt org q index er es g).img ∧
    CanvasItem.text [.m a]
        ∈ canvasItems (generate_receipt org q index er es g).img

/-- What C1 asserts of one `generate_acknowledgment_letter` call: exactly one
record is appended, and its `amount` and `date` are the amount and the
donation-received date drawn in the letter body — the body date `d - off`
(1 ≤ off ≤ 14 days before the letterhead date `d`), not the letterhead
date. -/
def LetterLockstep (org : Org) (q : String) (index : Nat) (er : Int)
    (es : List Entry) (g : RandGen) : Prop :=
  ∃ d a off,
    (generate_acknowledgment_letter org q index er es g).entries
        = es ++ [letterRecord org q index a (d - off)] ∧
    1 ≤ off ∧ off ≤ 14 ∧
    CanvasItem.text [.d d "%B %d, %Y"]
        ∈ canvasItems (generate_acknowledgment_letter org q index er es g).img ∧
    CanvasItem.text [.s "Thank you for your generous donation of ", .m a,
          .s " received on ", .d (d - off) "%B %d, %Y",
          .s ". Your support helps us continue our mission to serve the community."]
        ∈ canvasItems (generate_acknowledgment_letter org q index er es g).img ∧
    CanvasItem.text [.s "Amount: ", .m a]
        ∈ canvasItems (generate_acknowledgment_letter org q index er es g).img ∧
    CanvasItem.text [.s "Date Received: ", .d (d - off) "%Y-%m-%d"]
        ∈ canvasItems (generate_acknowledgment_letter org q index er es g).img

/-- What C1 asserts of one `generate_bank_statement` call: exactly one record
is appended; its `charitable_transactions` are exactly the charitable
transactions among the drawn rows, with absolute amounts and dates; and the
bank name, account number, statement period and every drawn row are on the
canvas. -/
def BankLockstep (bank : Bank) (q : String) (index : Nat) (er : Int)
    (es : List Entry) (g : RandGen) : Prop :=
  ∃ (acctN startD : Int) (txns : List Txn),
    (generate_bank_statement bank q index er es g).entries
        = es ++ [bankRecord bank q index ("***" ++ toString acctN)
            startD (startD + 30) (drawTxns txns 190).2] ∧
    (drawTxns txns 190).2 =
      ((drawnTxns txns 190).filter (fun t => t.charitable)).map charRow ∧
    CanvasItem.text [.s bank.name]
        ∈ canvasItems (generate_bank_statement bank q index er es g).img ∧
    CanvasItem.text [.s "Account: ", .s ("***" ++ toString acctN)]
        ∈ canvasItems (generate_bank_statement bank q index er es g).img ∧
    CanvasItem.text [.d startD "%m/%d/%Y", .s " - ", .d (startD + 30) "%m/%d/%Y"]
        ∈ canvasItems (generate_bank_statement bank q index er es g).img ∧
    ∀ x ∈ (drawTxns txns 190).1,
      x ∈ canvasItems (generate_bank_statement bank q index er es g).img

/-- C1: every invocation of a renderer appends exactly one manifest record
whose `expectedFields` equal the values actually rendered onto the image. -/
theorem renderer_manifest_lockstep (org : Org) (bank : Bank) (q : String)
    (index : Nat) (er : Int) (es : List Entry) (g : RandGen) :
    ReceiptLockstep org q index er es g ∧
    LetterLockstep org q index er es g ∧
    BankLockstep bank q index er es g := by
  refine ⟨?_, ?_, ?_⟩
  · obtain ⟨d, a, serial, g1, hout⟩ := generate_receipt_eq org q index er es g
    refine ⟨d, a, serial, by rw [hout], ?_, ?_, ?_, ?_, ?_, ?_⟩ <;>
      · rw [hout]
        exact mem_canvasItems_post _ _ _ _ _ (by rw [canvasItems_receiptCanvas]; simp)
  · obtain ⟨d, a, off, g1, hout, hoff⟩ := generate_acknowledgment_letter_eq org q index er es g
    obtain ⟨ho1, ho2⟩ := randint_bounds (random_amount 25 5000 (random_date g).2).2
      (show (1:Int) ≤ 14 by decide)
    rw [← hoff] at ho1 ho2
    refine ⟨d, a, off, by rw [hout], ho1, ho2, ?_, ?_, ?_, ?_⟩ <;>
      · rw [hout]
        exact mem_canvasItems_post _ _ _ _ _ (by rw [canvasItems_letterCanvas]; simp)
  · obtain ⟨acctN, startD, txns, g1, hout⟩ := generate_bank_statement_eq bank q index er es g
    refine ⟨acctN, startD, txns, by rw [hout], (drawTxns_spec txns 190).2, ?_, ?_, ?_, ?_⟩
    · rw [hout]
      exact mem_canvasItems_post _ _ _ _ _ (by rw [canvasItems_bankCanvas]; simp)
    · rw [hout]
      exact mem_canvasItems_post _ _ _ _ _ (by rw [canvasItems_bankCanvas]; simp)
    · rw [hout]
      exact mem_canvasItems_post _ _ _ _ _ (by rw [canvasItems_bankCanvas]; simp)
    · intro x hx
      rw [hout]
      refine mem_canvasItems_post _ _ _ _ _ ?_
      rw [canvasItems_bankCanvas]
      exact List.mem_append_left _ (List.mem_append_right _ hx)

/-! ### C3: watermark first, degradation second, uniformly -/

/-- C3: each of the three renderers post-processes its drawn canvas by the
same two functions in the same order: `add_watermark` first, `apply_quality`
second. -/
theorem post_processing_uniform (org : Org) (bank : Bank) (q : String)
    (index : Nat) (er : Int) (es : List Entry) (g : RandGen) :
    (∃ base gq, plainCanvas base = true ∧
      (generate_receipt org q index er es g).img
        = (apply_quality (add_watermark base) q er gq).1) ∧
    (∃ base gq, plainCanvas base = true ∧
      (generate_acknowledgment_letter org q index er es g).img
        = (apply_quality (add_watermark base) q er gq).1) ∧
    (∃ base gq, plainCanvas base = true ∧
      (generate_bank_statement bank q index er es g).img
        = (apply_quality (add_watermark base) q er gq).1) := by
  refine ⟨?_, ?_, ?_⟩
  · obtain ⟨d, a, serial, g1, hout⟩ := generate_receipt_eq org q index er es g
    exact ⟨receiptCanvas org d a serial, g1,
      by simp [receiptCanvas, plainCanvas_drawList, plainCanvas], by rw [hout]⟩
  · obtain ⟨d, a, off, g1, hout, hoff⟩ := generate_acknowledgment_letter_eq org q index er es g
    exact ⟨letterCanvas org d a (d - off), g1,
      by simp [letterCanvas, plainCanvas_drawList, plainCanvas], by rw [hout]⟩
  · obtain ⟨acctN, startD, txns, g1, hout⟩ := generate_bank_statement_eq bank q index er es g
    exact ⟨bankCanvas bank ("***" ++ toString acctN) startD (startD + 30) (drawTxns txns 190).1,
      g1, by simp [bankCanvas, plainCanvas_drawList, plainCanvas], by rw [hout]⟩

/-! ### Driver decomposition -/

theorem genReceipt_step (er : Int) (i : Nat) (q : String) (es : List Entry) (g : RandGen) :
    ∃ d a serial,
      (genReceipt er i q es g).1 = es ++ [receiptRecord (orgAt i) q (i + 1) d a serial] := by
  obtain ⟨d, a, serial, g1, hout⟩ := generate_receipt_eq (orgAt i) q (i + 1) er es g
  refine ⟨d, a, serial, ?_⟩
  show (generate_receipt (orgAt i) q (i + 1) er es g).entries = _
  rw [hout]

theorem genLetter_step (er : Int) (i : Nat) (q : String) (es : List Entry) (g : RandGen) :
    ∃ a dd,
      (genLetter er i q es g).1 = es ++ [letterRecord (orgAt i) q (i + 1) a dd] := by
  obtain ⟨d, a, off, g1, hout, hoff⟩ :=
    generate_acknowledgment_letter_eq (orgAt i) q (i + 1) er es g
  refine ⟨a, d - off, ?_⟩
  show (generate_acknowledgment_letter (orgAt i) q (i + 1) er es g).entries = _
  rw [hout]

theorem genStatement_step (er : Int) (i : Nat) (q : String) (es : List Entry) (g : RandGen) :
    ∃ (acctN startD : Int) (txns : List Txn),
      (genStatement er i q es g).1 = es ++ [bankRecord (bankAt i) q (i + 1)
        ("***" ++ toString acctN) startD (startD + 30) (drawTxns txns 190).2] := by
  obtain ⟨acctN, startD, txns, g1, hout⟩ :=
    generate_bank_statement_eq (bankAt i) q (i + 1) er es g
  refine ⟨acctN, startD, txns, ?_⟩
  show (generate_bank_statement (bankAt i) q (i + 1) er es g).entries = _
  rw [hout]

theorem mainWith_documents_spec (er : Int) (now : String) (g : RandGen)
    (P1 P2 P3 : Nat → String → Entry → Prop)
    (H1 : ∀ i q es g2, ∃ e, (genReceipt er i q es g2).1 = es ++ [e] ∧ P1 i q e)
    (H2 : ∀ i q es g2, ∃ e, (genLetter er i q es g2).1 = es ++ [e] ∧ P2 i q e)
    (H3 : ∀ i q es g2, ∃ e, (genStatement er i q es g2).1 = es ++ [e] ∧ P3 i q e) :
    ∃ L1 L2 L3,
      (mainWith er now g).documents = L1 ++ L2 ++ L3 ∧
      L1.length = 30 ∧ L2.length = 20 ∧ L3.length = 15 ∧
      (∀ j, j < 30 → P1 j (receiptSchedule.getD j "") (L1.getD j [])) ∧
      (∀ j, j < 20 → P2 j (letterSchedule.getD j "") (L2.getD j [])) ∧
      (∀ j, j < 15 → P3 j (statementSchedule.getD j "") (L3.getD j [])) := by
  obtain ⟨L1, h1, hl1, hp1⟩ := runSchedule_spec (genReceipt er) P1 H1 receiptSchedule 0 [] g
  obtain ⟨L2, h2, hl2, hp2⟩ := runSchedule_spec (genLetter er) P2 H2 letterSchedule 0
    (runSchedule (genReceipt er) receiptSchedule 0 [] g).1
    (runSchedule (genReceipt er) receiptSchedule 0 [] g).2
  obtain ⟨L3, h3, hl3, hp3⟩ := runSchedule_spec (genStatement er) P3 H3 statementSchedule 0
    (runSchedule (genLetter er) letterSchedule 0
      (runSchedule (genReceipt er) receiptSchedule 0 [] g).1
      (runSchedule (genReceipt er) receiptSchedule 0 [] g).2).1
    (runSchedule (genLetter er) letterSchedule 0
      (runSchedule (genReceipt er) receiptSchedule 0 [] g).1
      (runSchedule (genReceipt er) receiptSchedule 0 [] g).2).2
  have hsched1 : receiptSchedule.length = 30 := by decide
  have hsched2 : letterSchedule.length = 20 := by decide
  have hsched3 : statementSchedule.length = 15 := by decide
  refine ⟨L1, L2, L3, ?_, by rw [hl1, hsched1], by rw [hl2, hsched2], by rw [hl3, hsched3],
    ?_, ?_, ?_⟩
  · rw [mainWith_documents_eq]
    unfold pass3 pass2 pass1
    rw [h3, h2, h1]
    simp
  · intro j hj
    have := hp1 j (by rw [hsched1]; omega)
    simpa using this
  · intro j hj
    have := hp2 j (by rw [hsched2]; omega)
    simpa using this
  · intro j hj
    have := hp3 j (by rw [hsched3]; omega)
    simpa using this

theorem mainWith_documents_map {β : Type _} (er : Int) (now : String) (g : RandGen)
    (proj : Entry → β) (pf1 pf2 pf3 : Nat → String → β)
    (H1 : ∀ i q es g2, ∃ e, (genReceipt er i q es g2).1 = es ++ [e] ∧ proj e = pf1 i q)
    (H2 : ∀ i q es g2, ∃ e, (genLetter er i q es g2).1 = es ++ [e] ∧ proj e = pf2 i q)
    (H3 : ∀ i q es g2, ∃ e, (genStatement er i q es g2).1 = es ++ [e] ∧ proj e = pf3 i q) :
    (mainWith er now g).documents.map proj =
      pfList pf1 receiptSchedule 0 ++ pfList pf2 letterSchedule 0 ++
        pfList pf3 statementSchedule 0 := by
  obtain ⟨L1, h1, hm1⟩ := runSchedule_map (genReceipt er) proj pf1 H1 receiptSchedule 0 [] g
  obtain ⟨L2, h2, hm2⟩ := runSchedule_map (genLetter er) proj pf2 H2 letterSchedule 0
    (runSchedule (genReceipt er) receiptSchedule 0 [] g).1
    (runSchedule (genReceipt er) receiptSchedule 0 [] g).2
  obtain ⟨L3, h3, hm3⟩ := runSchedule_map (genStatement er) proj pf3 H3 statementSchedule 0
    (runSchedule (genLetter er) letterSchedule 0
      (runSchedule (genReceipt er) receiptSchedule 0 [] g).1
      (runSchedule (genReceipt er) receiptSchedule 0 [] g).2).1
    (runSchedule (genLetter er) letterSchedule 0
      (runSchedule (genReceipt er) receiptSchedule 0 [] g).1
      (runSchedule (genReceipt er) receiptSchedule 0 [] g).2).2
  rw [mainWith_documents_eq]
  unfold pass3 pass2 pass1
  rw [h3, h2, h1]
  simp [hm1, hm2, hm3]

/-! ### C5: manifest record shape -/

/-- The key set of every manifest record. -/
def fileKeys : List String :=
  ["filename", "documentType", "quality", "synthetic", "expectedFields"]

/-- The `filename` value of the receipt scheduled at step `i`. -/
def receiptNameOf (i : Nat) (q : String) : Option EntryVal :=
  some (.sc (.str ("receipts/" ++ receiptFilename (orgAt i) q (i + 1))))

/-- The `filename` value of the letter scheduled at step `i`. -/
def letterNameOf (i : Nat) (q : String) : Option EntryVal :=
  some (.sc (.str ("acknowledgment_letters/" ++ letterFilename (orgAt i) q (i + 1))))

/-- The `filename` value of the bank statement scheduled at step `i`. -/
def bankNameOf (i : Nat) (q : String) : Option EntryVal :=
  some (.sc (.str ("bank_statements/" ++ bankFilename (bankAt i) q (i + 1))))

theorem mem_pfList_const {β : Type _} (c : β) (sched : List String) (i : Nat) (x : β)
    (hx : x ∈ pfList (fun _ _ => c) sched i) : x = c := by
  induction sched generalizing i with
  | nil => simp [pfList] at hx
  | cons q rest ih =>
    rcases (by simpa [pfList] using hx : x = c ∨ x ∈ pfList (fun _ _ => c) rest (i + 1)) with
      h | h
    · exact h
    · exact ih _ h

theorem run_filenames_nodup :
    (pfList receiptNameOf receiptSchedule 0 ++ pfList letterNameOf letterSchedule 0 ++
      pfList bankNameOf statementSchedule 0).Nodup := by decide

/-- C5: one JSON record per generated image, keyed by path relative to the
documents directory (pairwise distinct within a run); every record has
exactly the keys `filename`, `documentType`, `quality`, `synthetic`,
`expectedFields`; and each record's `quality` is the very label its image
was degraded with (the label passed to `apply_quality`). -/
theorem manifest_record_shape (now : String) (g : RandGen) :
    (runProgram now g).totalDocuments = (runProgram now g).documents.length ∧
    (∀ e ∈ (runProgram now g).documents, e.map Prod.fst = fileKeys) ∧
    ((runProgram now g).documents.map (List.lookup "filename")).Nodup ∧
    (∀ (org : Org) (q : String) (index : Nat) (er : Int) (es : List Entry) (g2 : RandGen),
      ∃ e base gq,
        (generate_receipt org q index er es g2).entries = es ++ [e] ∧
        e.lookup "quality" = some (.sc (.str q)) ∧
        (generate_receipt org q index er es g2).img
          = (apply_quality (add_watermark base) q er gq).1) ∧
    (∀ (org : Org) (q : String) (index : Nat) (er : Int) (es : List Entry) (g2 : RandGen),
      ∃ e base gq,
        (generate_acknowledgment_letter org q index er es g2).entries = es ++ [e] ∧
        e.lookup "quality" = some (.sc (.str q)) ∧
        (generate_acknowledgment_letter org q index er es g2).img
          = (apply_quality (add_watermark base) q er gq).1) ∧
    (∀ (bank : Bank) (q : String) (index : Nat) (er : Int) (es : List Entry) (g2 : RandGen),
      ∃ e base gq,
        (generate_bank_statement bank q index er es g2).entries = es ++ [e] ∧
        e.lookup "quality" = some (.sc (.str q)) ∧
        (generate_bank_statement bank q index er es g2).img
          = (apply_quality (add_watermark base) q er gq).1) := by
  unfold runProgram
  have hkeys := mainWith_documents_map (moduleEdgeRotation g).1 now (moduleEdgeRotation g).2
    (fun e => e.map Prod.fst)
    (fun _ _ => fileKeys) (fun _ _ => fileKeys) (fun _ _ => fileKeys)
    (fun i q es g2 => by
      obtain ⟨d, a, serial, h⟩ := genReceipt_step _ i q es g2
      exact ⟨_, h, rfl⟩)
    (fun i q es g2 => by
      obtain ⟨a, dd, h⟩ := genLetter_step _ i q es g2
      exact ⟨_, h, rfl⟩)
    (fun i q es g2 => by
      obtain ⟨acctN, startD, txns, h⟩ := genStatement_step _ i q es g2
      exact ⟨_, h, rfl⟩)
  have hnames := mainWith_documents_map (moduleEdgeRotation g).1 now (moduleEdgeRotation g).2
    (List.lookup "filename") receiptNameOf letterNameOf bankNameOf
    (fun i q es g2 => by
      obtain ⟨d, a, serial, h⟩ := genReceipt_step _ i q es g2
      exact ⟨_, h, rfl⟩)
    (fun i q es g2 => by
      obtain ⟨a, dd, h⟩ := genLetter_step _ i q es g2
      exact ⟨_, h, rfl⟩)
    (fun i q es g2 => by
      obtain ⟨acctN, startD, txns, h⟩ := genStatement_step _ i q es g2
      exact ⟨_, h, rfl⟩)
  refine ⟨?_, ?_, ?_, ?_, ?_, ?_⟩
  · rw [mainWith_total_eq, mainWith_documents_eq]
  · intro e he
    have hmem : e.map Prod.fst ∈
        (mainWith (moduleEdgeRotation g).1 now (moduleEdgeRotation g).2).documents.map
          (fun e => e.map Prod.fst) :=
      List.mem_map_of_mem _ he
    rw [hkeys] at hmem
    simp only [List.mem_append] at hmem
    rcases hmem with (h | h) | h <;> exact mem_pfList_const _ _ _ _ h
  · rw [hnames]
    exact run_filenames_nodup
  · intro org q index er es g2
    obtain ⟨d, a, serial, g1, hout⟩ := generate_receipt_eq org q index er es g2
    exact ⟨receiptRecord org q index d a serial, receiptCanvas org d a serial, g1,
      by rw [hout], rfl, by rw [hout]⟩
  · intro org q index er es g2
    obtain ⟨d, a, off, g1, hout, hoff⟩ := generate_acknowledgment_letter_eq org q index er es g2
    exact ⟨letterRecord org q index a (d - off), letterCanvas org d a (d - off), g1,
      by rw [hout], rfl, by rw [hout]⟩
  · intro bank q index er es g2
    obtain ⟨acctN, startD, txns, g1, hout⟩ := generate_bank_statement_eq bank q index er es g2
    exact ⟨bankRecord bank q index ("***" ++ toString acctN) startD (startD + 30)
        (drawTxns txns 190).2,
      bankCanvas bank ("***" ++ toString acctN) startD (startD + 30) (drawTxns txns 190).1, g1,
      by rw [hout], rfl, by rw [hout]⟩

/-! ### C6: driver schedule and totals -/

/-- Everything C6 asserts of one run: the fixed per-type quality/count
distribution, the single final manifest's `totalDocuments` equal both to the
length of `documents` and to the sum of the per-type `documentCounts`, and,
at scheduled positions `i` (receipts), `30 + j` (letters), `50 + k` (bank
statements), a record produced by the matching renderer from the round-robin
catalog entry, the scheduled quality, and the one-based per-type index. -/
def DriverClaim (now : String) (g : RandGen) (i j k : Nat) : Prop :=
  receiptSchedule.length = 30 ∧
  receiptSchedule.count "high" = 12 ∧ receiptSchedule.count "medium" = 9 ∧
  receiptSchedule.count "low" = 6 ∧ receiptSchedule.count "edge" = 3 ∧
  letterSchedule.length = 20 ∧
  letterSchedule.count "high" = 10 ∧ letterSchedule.count "medium" = 6 ∧
  letterSchedule.count "low" = 4 ∧
  statementSchedule.length = 15 ∧
  statementSchedule.count "high" = 8 ∧ statementSchedule.count "medium" = 5 ∧
  statementSchedule.count "low" = 2 ∧
  (runProgram now g).totalDocuments = (runProgram now g).documents.length ∧
  (runProgram now g).documentCounts = ⟨30, 20, 15⟩ ∧
  (runProgram now g).totalDocuments =
    (runProgram now g).documentCounts.receipts +
    (runProgram now g).documentCounts.acknowledgment_letters +
    (runProgram now g).documentCounts.bank_statements ∧
  (∃ d a serial, (runProgram now g).documents.getD i []
      = receiptRecord (orgAt i) (receiptSchedule.getD i "") (i + 1) d a serial) ∧
  (∃ a dd, (runProgram now g).documents.getD (30 + j) []
      = letterRecord (orgAt j) (letterSchedule.getD j "") (j + 1) a dd) ∧
  (∃ (acctN startD : Int) (txns : List Txn), (runProgram now g).documents.getD (50 + k) []
      = bankRecord (bankAt k) (statementSchedule.getD k "") (k + 1)
          ("***" ++ toString acctN) startD (startD + 30) (drawTxns txns 190).2)

/-- C6: the driver iterates the fixed quality/count distribution per document
type, cycles round-robin through the catalogs, invokes the matching renderer
once per scheduled document, and writes one final manifest whose
`totalDocuments` equals the length of `documents` and the sum of the per-type
`documentCounts`. -/
theorem driver_schedule_and_totals (now : String) (g : RandGen) (i j k : Nat)
    (hi : i < 30) (hj : j < 20) (hk : k < 15) : DriverClaim now g i j k := by
  obtain ⟨L1, L2, L3, hdocs, hl1, hl2, hl3, hp1, hp2, hp3⟩ :=
    mainWith_documents_spec (moduleEdgeRotation g).1 now (moduleEdgeRotation g).2
      (fun i q e => ∃ d a serial, e = receiptRecord (orgAt i) q (i + 1) d a serial)
      (fun i q e => ∃ a dd, e = letterRecord (orgAt i) q (i + 1) a dd)
      (fun i q e => ∃ (acctN startD : Int) (txns : List Txn),
        e = bankRecord (bankAt i) q (i + 1) ("***" ++ toString acctN)
              startD (startD + 30) (drawTxns txns 190).2)
      (fun i q es g2 => by
        obtain ⟨d, a, serial, h⟩ := genReceipt_step _ i q es g2
        exact ⟨_, h, d, a, serial, rfl⟩)
      (fun i q es g2 => by
        obtain ⟨a, dd, h⟩ := genLetter_step _ i q es g2
        exact ⟨_, h, a, dd, rfl⟩)
      (fun i q es g2 => by
        obtain ⟨acctN, startD, txns, h⟩ := genStatement_step _ i q es g2
        exact ⟨_, h, acctN, startD, txns, rfl⟩)
  have hlen : (mainWith (moduleEdgeRotation g).1 now
      (moduleEdgeRotation g).2).documents.length = 65 := by
    rw [hdocs]
    simp [hl1, hl2, hl3]
  unfold DriverClaim
  unfold runProgram
  refine ⟨by decide, by decide, by decide, by decide, by decide, by decide, by decide,
    by decide, by decide, by decide, by decide, by decide, by decide,
    ?_, mainWith_counts_eq _ _ _, ?_, ?_, ?_, ?_⟩
  · rw [mainWith_total_eq, mainWith_documents_eq]
  · rw [mainWith_total_eq, mainWith_counts_eq]
    rw [mainWith_documents_eq] at hlen
    rw [hlen]
    decide
  · have e1 : ((L1 ++ L2) ++ L3).getD i [] = (L1 ++ L2).getD i [] :=
      List.getD_append _ _ _ _ (by rw [List.length_append, hl1, hl2]; omega)
    have e2 : (L1 ++ L2).getD i [] = L1.getD i [] :=
      List.getD_append _ _ _ _ (by rw [hl1]; omega)
    rw [hdocs, e1, e2]
    exact hp1 i hi
  · have e1 : ((L1 ++ L2) ++ L3).getD (30 + j) [] = (L1 ++ L2).getD (30 + j) [] :=
      List.getD_append _ _ _ _ (by rw [List.length_append, hl1, hl2]; omega)
    have e2 : (L1 ++ L2).getD (30 + j) [] = L2.getD (30 + j - L1.length) [] :=
      List.getD_append_right _ _ _ _ (by rw [hl1]; omega)
    have e3 : 30 + j - L1.length = j := by rw [hl1]; omega
    rw [hdocs, e1, e2, e3]
    exact hp2 j hj
  · have e1 : ((L1 ++ L2) ++ L3).getD (50 + k) [] = L3.getD (50 + k - (L1 ++ L2).length) [] :=
      List.getD_append_right _ _ _ _ (by rw [List.length_append, hl1, hl2]; omega)
    have e3 : 50 + k - (L1 ++ L2).length = k := by rw [List.length_append, hl1, hl2]; omega
    rw [hdocs, e1, e3]
    exact hp3 k hk

theorem driver_schedule_and_totals_witness :
    (0 : Nat) < 30 ∧ DriverClaim "2026-01-29T00:00:00Z" gZero 0 0 0 :=
  ⟨by decide,
   driver_schedule_and_totals "2026-01-29T00:00:00Z" gZero 0 0 0
     (by decide) (by decide) (by decide)⟩

end GenerateDocuments
